import Mathlib

/-!
Verification of the NYC taxi data-analysis pipeline.

The development shallowly embeds the core of the repository:
`src/processing.py` (schema normalization, ghost-trip classification and the
clean/ghost partition), `src/geospatial.py` (the congestion- and border-zone
classifiers) and `src/analytics.py` (the leakage audit, border-effect and
velocity-heatmap aggregations).

Timestamps are modelled as whole seconds since the epoch (polars durations
expose `dt.total_seconds()` as an integer count of seconds), and floating
point columns are modelled as exact rationals.  Dataframes become lists of
records; lazy filter / group-by / aggregate pipelines become the
corresponding list operations.
-/

namespace NYC

/-- Canonical trip record, the row shape produced by `standardize_schema`
in `src/processing.py`. -/
structure TripRecord where
  pickup_time : Int
  dropoff_time : Int
  pickup_loc : Int
  dropoff_loc : Int
  trip_distance : ℚ
  fare : ℚ
  total_amount : ℚ
  tip_amount : ℚ
  congestion_surcharge : ℚ
deriving DecidableEq

/-- Derived column `duration_min` of `apply_ghost_logic`:
`(dropoff_time - pickup_time).dt.total_seconds() / 60`. -/
def TripRecord.duration_min (r : TripRecord) : ℚ :=
  ((r.dropoff_time - r.pickup_time : Int) : ℚ) / 60

/-- The denominator of the `speed_mph` expression in `apply_ghost_logic`:
duration in hours plus the fixed epsilon `0.0001`. -/
def speedDenominator (r : TripRecord) : ℚ :=
  ((r.dropoff_time - r.pickup_time : Int) : ℚ) / 3600 + 1 / 10000

/-- Derived column `speed_mph` of `apply_ghost_logic`:
`trip_distance / (total_seconds / 3600 + 0.0001)`. -/
def TripRecord.speed_mph (r : TripRecord) : ℚ :=
  r.trip_distance / speedDenominator r

def impossiblePhysics : String := "Impossible Physics (>65mph)"

def teleporterReason : String := "Teleporter (<1min, >$20)"

def stationaryRide : String := "Stationary Ride (0mi, >$0)"

def timeTravel : String := "Time Travel (Negative Duration)"

/-- The `ghost_reason` column of `apply_ghost_logic`: the nested
`when/then/otherwise` chain of `src/processing.py`, lines 74-87. -/
def TripRecord.ghost_reason (r : TripRecord) : Option String :=
  if r.speed_mph > 65 then some impossiblePhysics
  else if r.duration_min < 1 ∧ r.fare > 20 then some teleporterReason
  else if r.trip_distance = 0 ∧ r.fare > 0 then some stationaryRide
  else if r.duration_min < 0 then some timeTravel
  else none

/-- A canonical record augmented with the three derived columns added by
`apply_ghost_logic`. -/
structure ClassifiedRecord where
  base : TripRecord
  duration_min : ℚ
  speed_mph : ℚ
  ghost_reason : Option String
deriving DecidableEq

/-- `apply_ghost_logic` of `src/processing.py`: `with_columns` keeps every
row, in order, and adds the `duration_min`, `speed_mph` and `ghost_reason`
columns. -/
def apply_ghost_logic (batch : List TripRecord) : List ClassifiedRecord :=
  batch.map (fun r => ⟨r, r.duration_min, r.speed_mph, r.ghost_reason⟩)

/-- The anomaly rules as an ordered list of (predicate, reason) pairs,
following the spec's description of the rule chain (section 4.3). -/
def ghostRules : List ((TripRecord → Bool) × String) :=
  [(fun r => decide (r.speed_mph > 65), impossiblePhysics),
   (fun r => decide (r.duration_min < 1 ∧ r.fare > 20), teleporterReason),
   (fun r => decide (r.trip_distance = 0 ∧ r.fare > 0), stationaryRide),
   (fun r => decide (r.duration_min < 0), timeTravel)]

/-- First-match-wins evaluation of the ordered rule list, following the
spec's words: evaluate the rules in fixed order, stop at the first match,
and assign no reason when no rule matches. -/
def firstMatchingRule (r : TripRecord) : Option String :=
  (ghostRules.find? (fun pr => pr.1 r)).map (fun pr => pr.2)

/-- The split of `process_data` (step 3 in `src/processing.py`): ghosts are
the rows whose `ghost_reason` is not null, clean rows those where it is
null. -/
def splitGhosts (batch : List ClassifiedRecord) : List ClassifiedRecord × List ClassifiedRecord :=
  (batch.filter (fun c => c.ghost_reason.isSome),
   batch.filter (fun c => c.ghost_reason.isNone))

/-- A record whose derived speed is exactly 80 mph while its derived
duration is negative (dropoff one hour before pickup). -/
def fastTimeTravelRecord : TripRecord :=
  { pickup_time := 3600, dropoff_time := 0, pickup_loc := 1, dropoff_loc := 2,
    trip_distance := -9999/125, fare := 10, total_amount := 10, tip_amount := 0,
    congestion_surcharge := 0 }

theorem fastTimeTravelRecord_speed : fastTimeTravelRecord.speed_mph = 80 := by
  norm_num [TripRecord.speed_mph, speedDenominator, fastTimeTravelRecord]

theorem fastTimeTravelRecord_duration : fastTimeTravelRecord.duration_min = -60 := by
  norm_num [TripRecord.duration_min, fastTimeTravelRecord]

theorem ghost_reason_eq_firstMatchingRule (r : TripRecord) :
    r.ghost_reason = firstMatchingRule r := by
  unfold TripRecord.ghost_reason firstMatchingRule ghostRules
  by_cases h1 : r.speed_mph > 65 <;>
    by_cases h2 : r.duration_min < 1 ∧ r.fare > 20 <;>
      by_cases h3 : r.trip_distance = 0 ∧ r.fare > 0 <;>
        by_cases h4 : r.duration_min < 0 <;>
          simp [List.find?, h1, h2, h3, h4]

theorem ghost_reason_of_fast (r : TripRecord) (h1 : r.speed_mph > 65) :
    r.ghost_reason = some impossiblePhysics := by
  simp [TripRecord.ghost_reason, h1]

theorem impossiblePhysics_ne_timeTravel : impossiblePhysics ≠ timeTravel := by
  decide

/-- C1: `ghost_reason` is assigned by evaluating the anomaly rules in the
fixed order speed, teleporter, stationary, time-travel, stopping at the
first matching rule; a record with speed 80 mph and negative duration is
tagged "Impossible Physics (>65mph)", never "Time Travel (Negative
Duration)", and a record matching no rule gets no reason. -/
theorem C1_ghost_rule_priority :
    (∀ r : TripRecord, r.ghost_reason = firstMatchingRule r) ∧
    (∀ r : TripRecord, r.speed_mph > 65 → r.duration_min < 0 →
      r.ghost_reason = some impossiblePhysics ∧ r.ghost_reason ≠ some timeTravel) ∧
    (fastTimeTravelRecord.speed_mph = 80 ∧ fastTimeTravelRecord.duration_min < 0 ∧
      fastTimeTravelRecord.ghost_reason = some impossiblePhysics ∧
      fastTimeTravelRecord.ghost_reason ≠ some timeTravel) ∧
    (∀ r : TripRecord, ¬ r.speed_mph > 65 → ¬ (r.duration_min < 1 ∧ r.fare > 20) →
      ¬ (r.trip_distance = 0 ∧ r.fare > 0) → ¬ r.duration_min < 0 →
      r.ghost_reason = none) := by
  have key : ∀ r : TripRecord, r.speed_mph > 65 →
      r.ghost_reason = some impossiblePhysics ∧ r.ghost_reason ≠ some timeTravel := by
    intro r h1
    refine ⟨ghost_reason_of_fast r h1, ?_⟩
    rw [ghost_reason_of_fast r h1]
    simp [impossiblePhysics_ne_timeTravel]
  refine ⟨ghost_reason_eq_firstMatchingRule, fun r h1 _ => key r h1, ?_, ?_⟩
  · have h80 : fastTimeTravelRecord.speed_mph > 65 := by
      rw [fastTimeTravelRecord_speed]; norm_num
    have hneg : fastTimeTravelRecord.duration_min < 0 := by
      rw [fastTimeTravelRecord_duration]; norm_num
    exact ⟨fastTimeTravelRecord_speed, hneg, key fastTimeTravelRecord h80⟩
  · intro r h1 h2 h3 h4
    simp [TripRecord.ghost_reason, h1, h2, h3, h4]

theorem C1_ghost_rule_priority_witness :
    fastTimeTravelRecord.ghost_reason = some impossiblePhysics ∧
    fastTimeTravelRecord.ghost_reason ≠ some timeTravel :=
  C1_ghost_rule_priority.2.1 fastTimeTravelRecord
    (by rw [fastTimeTravelRecord_speed]; norm_num)
    (by rw [fastTimeTravelRecord_duration]; norm_num)

theorem length_filter_isSome_add_isNone (batch : List ClassifiedRecord) :
    (batch.filter (fun c => c.ghost_reason.isSome)).length +
      (batch.filter (fun c => c.ghost_reason.isNone)).length = batch.length := by
  induction batch with
  | nil => rfl
  | cons c t ih =>
    cases h : c.ghost_reason <;> simp [List.filter, h] <;> omega

/-- C2: the clean partition (null `ghost_reason`) and the ghost partition
(non-null `ghost_reason`) of a classified batch are disjoint and
exhaustive: every record of the batch is in exactly one of the two, and
the lengths add up to the length of the input. -/
theorem C2_partition_disjoint_exhaustive (batch : List ClassifiedRecord) :
    ((splitGhosts batch).2.length + (splitGhosts batch).1.length = batch.length) ∧
    (∀ c : ClassifiedRecord,
      (c ∈ (splitGhosts batch).2 ↔ c ∈ batch ∧ c.ghost_reason = none) ∧
      (c ∈ (splitGhosts batch).1 ↔ c ∈ batch ∧ c.ghost_reason ≠ none) ∧
      ¬ (c ∈ (splitGhosts batch).2 ∧ c ∈ (splitGhosts batch).1)) ∧
    (∀ c ∈ batch,
      (c ∈ (splitGhosts batch).2 ∧ c ∉ (splitGhosts batch).1) ∨
      (c ∈ (splitGhosts batch).1 ∧ c ∉ (splitGhosts batch).2)) := by
  refine ⟨?_, ?_, ?_⟩
  · have h := length_filter_isSome_add_isNone batch
    simp only [splitGhosts]
    omega
  · intro c
    refine ⟨?_, ?_, ?_⟩
    · simp [splitGhosts, List.mem_filter, Option.isNone_iff_eq_none]
    · simp [splitGhosts, List.mem_filter, Option.isSome_iff_ne_none]
    · rintro ⟨h1, h2⟩
      simp only [splitGhosts] at h1 h2
      rw [List.mem_filter] at h1 h2
      simp only [Option.isNone_iff_eq_none] at h1
      rw [h1.2] at h2
      simp at h2
  · intro c hc
    by_cases h : c.ghost_reason = none
    · refine Or.inl ⟨List.mem_filter.mpr ⟨hc, by simp [h]⟩, fun hmem => ?_⟩
      simp only [splitGhosts] at hmem
      rw [List.mem_filter] at hmem
      simp [h] at hmem
    · refine Or.inr ⟨List.mem_filter.mpr ⟨hc, by simp [Option.isSome_iff_ne_none, h]⟩,
        fun hmem => ?_⟩
      simp only [splitGhosts] at hmem
      rw [List.mem_filter] at hmem
      simp only [Option.isNone_iff_eq_none] at hmem
      exact h hmem.2

theorem C2_partition_disjoint_exhaustive_witness :
    (splitGhosts (apply_ghost_logic [fastTimeTravelRecord])).2.length +
      (splitGhosts (apply_ghost_logic [fastTimeTravelRecord])).1.length = 1 :=
  (C2_partition_disjoint_exhaustive (apply_ghost_logic [fastTimeTravelRecord])).1

/-- C9: for every canonical trip record, over all pickup/dropoff timestamp
pairs, the denominator of the `speed_mph` division (duration in hours plus
the fixed epsilon 0.0001) is nonzero: an integer number of seconds divided
by 3600 can never equal -1/10000. -/
theorem C9_speed_denominator_nonzero (r : TripRecord) : speedDenominator r ≠ 0 := by
  unfold speedDenominator
  intro h
  have h2 : ((r.dropoff_time : ℚ) - (r.pickup_time : ℚ)) * 25 = -9 := by
    field_simp at h
    linarith
  have h3 : ((r.dropoff_time - r.pickup_time) * 25 : Int) = (-9 : Int) := by
    exact_mod_cast h2
  omega

theorem C9_speed_denominator_nonzero_witness :
    speedDenominator fastTimeTravelRecord ≠ 0 :=
  C9_speed_denominator_nonzero fastTimeTravelRecord

/-- C10: classification preserves its input batch: mapping the classified
records back to their canonical part returns exactly the input list (same
records, same order, canonical fields untouched), and the three added
columns are exactly the derived duration, speed and reason of the
underlying record. -/
theorem C10_classification_preserves_batch (batch : List TripRecord) :
    ((apply_ghost_logic batch).map ClassifiedRecord.base = batch) ∧
    ((apply_ghost_logic batch).length = batch.length) ∧
    (∀ c ∈ apply_ghost_logic batch,
      c.duration_min = c.base.duration_min ∧ c.speed_mph = c.base.speed_mph ∧
      c.ghost_reason = c.base.ghost_reason) := by
  refine ⟨?_, by simp [apply_ghost_logic], ?_⟩
  · simp only [apply_ghost_logic, List.map_map]
    have : (ClassifiedRecord.base ∘ fun r : TripRecord =>
        (⟨r, r.duration_min, r.speed_mph, r.ghost_reason⟩ : ClassifiedRecord)) = id := rfl
    rw [this, List.map_id]
  · intro c hc
    rcases List.mem_map.mp hc with ⟨r, _, rfl⟩
    exact ⟨rfl, rfl, rfl⟩

theorem C10_classification_preserves_batch_witness :
    (apply_ghost_logic [fastTimeTravelRecord]).map ClassifiedRecord.base =
      [fastTimeTravelRecord] :=
  (C10_classification_preserves_batch [fastTimeTravelRecord]).1

/-- A group-by result: one row per key, carrying the aggregate of that key. -/
def keyTable {K V : Type} (keys : List K) (f : K → V) : List (K × V) :=
  keys.map (fun k => (k, f k))

theorem mem_keyTable {K V : Type} {keys : List K} {f : K → V} {k : K} {v : V} :
    (k, v) ∈ keyTable keys f ↔ k ∈ keys ∧ v = f k := by
  unfold keyTable
  constructor
  · intro h
    rcases List.mem_map.mp h with ⟨a, ha, hav⟩
    injection hav with h1 h2
    subst h1
    exact ⟨ha, h2.symm⟩
  · rintro ⟨hk, rfl⟩
    exact List.mem_map.mpr ⟨k, hk, rfl⟩

theorem find?_keyTable {V : Type} (keys : List Int) (f : Int → V) (z : Int) :
    (keyTable keys f).find? (fun p => p.1 == z) =
      if z ∈ keys then some (z, f z) else none := by
  induction keys with
  | nil => simp [keyTable]
  | cons k ks ih =>
    by_cases h : k = z
    · subst h
      simp [keyTable, List.find?]
    · simp only [keyTable, List.map_cons, List.find?] at *
      have hbeq : (k == z) = false := by simp [h]
      simp only [hbeq]
      rw [ih]
      have hz : ¬ z = k := fun hzk => h hzk.symm
      simp [List.mem_cons, hz]

/-- The compliance flag of `analyze_leakage` in `src/analytics.py`:
`congestion_surcharge > 0`. -/
def is_compliant (r : TripRecord) : Bool := decide (r.congestion_surcharge > 0)

/-- The leakage filter of `analyze_leakage`: pickup time at or after the
date lower bound, pickup zone outside the congestion set, dropoff zone
inside it. -/
def leakage_filter (zoneIds : List Int) (dateBound : Int) (r : TripRecord) : Bool :=
  decide (r.pickup_time ≥ dateBound) && !(zoneIds.contains r.pickup_loc) &&
    zoneIds.contains r.dropoff_loc

/-- Per-pickup-zone trip volume (`pl.len()` of the group). -/
def leakageVolume (audit : List TripRecord) (l : Int) : ℕ :=
  (audit.filter (fun r => r.pickup_loc == l)).length

/-- Per-pickup-zone count of compliant trips. -/
def leakageCompliantCount (audit : List TripRecord) (l : Int) : ℕ :=
  (audit.filter (fun r => r.pickup_loc == l && is_compliant r)).length

/-- The aggregate of one pickup-zone group: volume and
`1 - mean(is_compliant)`. -/
def leakageAgg (audit : List TripRecord) (l : Int) : ℕ × ℚ :=
  (leakageVolume audit l,
   1 - (leakageCompliantCount audit l : ℚ) / (leakageVolume audit l : ℚ))

/-- The `group_by("pickup_loc").agg(...)` step of `analyze_leakage`. -/
def leakageGroups (audit : List TripRecord) : List (Int × ℕ × ℚ) :=
  keyTable (audit.map (fun r => r.pickup_loc)).dedup (leakageAgg audit)

/-- Descending order on leakage rate, the sort key of `analyze_leakage`. -/
def rateGe (a b : Int × ℕ × ℚ) : Prop := b.2.2 ≤ a.2.2

instance : DecidableRel rateGe :=
  fun a b => inferInstanceAs (Decidable (b.2.2 ≤ a.2.2))

instance : IsTotal (Int × ℕ × ℚ) rateGe := ⟨fun a b => le_total b.2.2 a.2.2⟩

instance : IsTrans (Int × ℕ × ℚ) rateGe := ⟨fun _ _ _ h1 h2 => le_trans h2 h1⟩

/-- Metric B of `analyze_leakage` in `src/analytics.py`: filter to
out-of-zone pickups ending in the zone, group by pickup zone, keep groups
with volume above 50, sort descending by leakage rate and keep the top 3. -/
def analyze_leakage (zoneIds : List Int) (dateBound : Int) (rows : List TripRecord) :
    List (Int × ℕ × ℚ) :=
  (List.insertionSort rateGe
    ((leakageGroups (rows.filter (leakage_filter zoneIds dateBound))).filter
      (fun g => decide (g.2.1 > 50)))).take 3

theorem mem_take_of_append {α : Type} {l : List α} {x : α} {n : ℕ}
    (hx : x ∈ l) (hnot : x ∉ l.take n) : x ∈ l.drop n := by
  rcases List.mem_append.mp ((List.take_append_drop n l) ▸ hx) with h | h
  · exact absurd h hnot
  · exact h

/-- C5: in the leakage audit the considered trips are exactly those at or
after the date bound starting outside and ending inside the zone set;
compliance is surcharge > 0; each group's rate is 1 minus its mean
compliance (volume 100 with 40 non-compliant gives rate 2/5); groups with
volume at most 50 never reach the ranking; and the result is the top 3
kept groups in descending rate order. -/
theorem C5_leakage_audit (zoneIds : List Int) (dateBound : Int) (rows : List TripRecord) :
    (∀ r ∈ rows, r ∈ rows.filter (leakage_filter zoneIds dateBound) ↔
      (r.pickup_time ≥ dateBound ∧ r.pickup_loc ∉ zoneIds ∧ r.dropoff_loc ∈ zoneIds)) ∧
    (∀ l v rate,
      (l, v, rate) ∈ leakageGroups (rows.filter (leakage_filter zoneIds dateBound)) →
      v = leakageVolume (rows.filter (leakage_filter zoneIds dateBound)) l ∧
      rate = 1 - (((rows.filter (leakage_filter zoneIds dateBound)).filter
          (fun r => r.pickup_loc == l && decide (r.congestion_surcharge > 0))).length : ℚ) /
        (v : ℚ)) ∧
    (∀ audit : List TripRecord, ∀ l : Int, leakageVolume audit l = 100 →
      leakageCompliantCount audit l = 60 → (leakageAgg audit l).2 = 2/5) ∧
    (∀ l : Int, leakageVolume (rows.filter (leakage_filter zoneIds dateBound)) l ≤ 50 →
      ∀ v rate, (l, v, rate) ∉ analyze_leakage zoneIds dateBound rows) ∧
    List.Sorted rateGe (analyze_leakage zoneIds dateBound rows) ∧
    (∀ g ∈ (leakageGroups (rows.filter (leakage_filter zoneIds dateBound))).filter
        (fun g => decide (g.2.1 > 50)),
      g ∉ analyze_leakage zoneIds dateBound rows →
      ∀ t ∈ analyze_leakage zoneIds dateBound rows, g.2.2 ≤ t.2.2) ∧
    (∀ t ∈ analyze_leakage zoneIds dateBound rows,
      t ∈ leakageGroups (rows.filter (leakage_filter zoneIds dateBound)) ∧ 50 < t.2.1) ∧
    ((analyze_leakage zoneIds dateBound rows).length =
      min 3 (((leakageGroups (rows.filter (leakage_filter zoneIds dateBound))).filter
        (fun g => decide (g.2.1 > 50))).length)) := by
  unfold analyze_leakage
  set audit := rows.filter (leakage_filter zoneIds dateBound) with haudit
  set kept := (leakageGroups audit).filter (fun g => decide (g.2.1 > 50)) with hkept
  have hmem_kept : ∀ t, t ∈ (List.insertionSort rateGe kept).take 3 → t ∈ kept := by
    intro t ht
    have h1 : t ∈ List.insertionSort rateGe kept :=
      (List.take_sublist 3 _).subset ht
    exact (List.perm_insertionSort rateGe kept).mem_iff.mp h1
  refine ⟨?_, ?_, ?_, ?_, ?_, ?_, ?_, ?_⟩
  · intro r hr
    simp [haudit, List.mem_filter, leakage_filter, hr, and_assoc]
  · intro l v rate h
    obtain ⟨-, hv⟩ := mem_keyTable.mp h
    rw [Prod.mk.injEq] at hv
    obtain ⟨hv1, hv2⟩ := hv
    refine ⟨hv1, ?_⟩
    rw [hv2, hv1]
    simp only [leakageAgg, leakageCompliantCount, is_compliant]
  · intro a l h1 h2
    simp only [leakageAgg, h1, h2]
    norm_num
  · intro l hle v rate hmem
    have h2 : (l, v, rate) ∈ kept := hmem_kept _ hmem
    rw [hkept, List.mem_filter] at h2
    obtain ⟨hgrp, hgt⟩ := h2
    obtain ⟨-, hv⟩ := mem_keyTable.mp hgrp
    rw [Prod.mk.injEq] at hv
    have hveq : v = leakageVolume audit l := hv.1
    simp only [decide_eq_true_eq] at hgt
    omega
  · exact (List.sorted_insertionSort rateGe kept).sublist (List.take_sublist 3 _)
  · intro g hg hnot t ht
    have hsorted := List.sorted_insertionSort rateGe kept
    have hgs : g ∈ List.insertionSort rateGe kept :=
      (List.perm_insertionSort rateGe kept).mem_iff.mpr hg
    have hgd : g ∈ (List.insertionSort rateGe kept).drop 3 :=
      mem_take_of_append hgs hnot
    have hpair := hsorted
    rw [← List.take_append_drop 3 (List.insertionSort rateGe kept)] at hpair
    have hcross := (List.pairwise_append.mp hpair).2.2
    exact hcross t ht g hgd
  · intro t ht
    have h2 := hmem_kept t ht
    rw [hkept, List.mem_filter] at h2
    refine ⟨h2.1, by simpa using h2.2⟩
  · rw [List.length_take, (List.perm_insertionSort rateGe kept).length_eq]

/-- A compliant audit trip: surcharge recorded. -/
def exampleCompliantTrip : TripRecord :=
  { pickup_time := 0, dropoff_time := 600, pickup_loc := 101, dropoff_loc := 7,
    trip_distance := 1, fare := 10, total_amount := 13, tip_amount := 0,
    congestion_surcharge := 3 }

/-- A leaky audit trip: no surcharge recorded. -/
def exampleLeakyTrip : TripRecord :=
  { pickup_time := 0, dropoff_time := 600, pickup_loc := 101, dropoff_loc := 7,
    trip_distance := 1, fare := 10, total_amount := 10, tip_amount := 0,
    congestion_surcharge := 0 }

/-- 100 audited trips from pickup zone 101, 40 of them without surcharge. -/
def exampleAudit : List TripRecord :=
  List.replicate 60 exampleCompliantTrip ++ List.replicate 40 exampleLeakyTrip

theorem exampleAudit_volume : leakageVolume exampleAudit 101 = 100 := by
  unfold leakageVolume exampleAudit
  rw [List.filter_append, List.filter_replicate, List.filter_replicate]
  norm_num [exampleCompliantTrip, exampleLeakyTrip]

theorem exampleAudit_compliant : leakageCompliantCount exampleAudit 101 = 60 := by
  unfold leakageCompliantCount exampleAudit
  rw [List.filter_append, List.filter_replicate, List.filter_replicate]
  norm_num [exampleCompliantTrip, exampleLeakyTrip, is_compliant]

theorem C5_leakage_audit_witness : (leakageAgg exampleAudit 101).2 = 2/5 :=
  (C5_leakage_audit [] 0 []).2.2.1 exampleAudit 101 exampleAudit_volume
    exampleAudit_compliant

/-- The `dropoff_loc.is_in(border_ids)` restriction of
`analyze_border_effect` in `src/analytics.py`. -/
def borderFiltered (borderIds : List Int) (rows : List TripRecord) : List TripRecord :=
  rows.filter (fun r => borderIds.contains r.dropoff_loc)

/-- A zone's yearly dropoff count among the border-restricted rows. -/
def borderCount (borderIds : List Int) (rows : List TripRecord) (z : Int) : ℕ :=
  ((borderFiltered borderIds rows).filter (fun r => r.dropoff_loc == z)).length

/-- The `group_by("dropoff_loc").agg(len)` step of `analyze_border_effect`. -/
def borderYearAgg (borderIds : List Int) (rows : List TripRecord) : List (Int × ℕ) :=
  keyTable (((borderFiltered borderIds rows).map (fun r => r.dropoff_loc)).dedup)
    (borderCount borderIds rows)

/-- Lookup of a zone's count in a yearly aggregate. -/
def lookupCount (a : List (Int × ℕ)) (z : Int) : Option ℕ :=
  (a.find? (fun p => p.1 == z)).map (fun p => p.2)

/-- The outer join on zone id followed by `fill_null(0)`: zones missing on
one side contribute a count of 0. -/
def outerJoinFill0 (a b : List (Int × ℕ)) : List (Int × ℕ × ℕ) :=
  a.map (fun p => (p.1, p.2, (lookupCount b p.1).getD 0)) ++
    (b.filter (fun p => (lookupCount a p.1).isNone)).map (fun p => (p.1, 0, p.2))

/-- The guarded percent change of `analyze_border_effect`:
`when(trips_2024 > 50).then(((trips_2025 - trips_2024) / trips_2024) * 100).otherwise(0.0)`. -/
def pct_change (trips_2024 trips_2025 : ℕ) : ℚ :=
  if trips_2024 > 50 then
    (((trips_2025 : ℚ) - (trips_2024 : ℚ)) / (trips_2024 : ℚ)) * 100
  else 0

/-- `analyze_border_effect` of `src/analytics.py`: per-zone yearly counts,
outer-joined with zero fill, and the guarded percent change per zone. -/
def analyze_border_effect (borderIds : List Int) (rows24 rows25 : List TripRecord) :
    List (Int × ℕ × ℕ × ℚ) :=
  (outerJoinFill0 (borderYearAgg borderIds rows24) (borderYearAgg borderIds rows25)).map
    (fun t => (t.1, t.2.1, t.2.2, pct_change t.2.1 t.2.2))

theorem mem_borderKeys_iff (borderIds : List Int) (rows : List TripRecord) (z : Int) :
    z ∈ ((borderFiltered borderIds rows).map (fun r => r.dropoff_loc)).dedup ↔
      0 < borderCount borderIds rows z := by
  rw [List.mem_dedup, List.mem_map]
  unfold borderCount
  rw [List.length_pos_iff_exists_mem]
  constructor
  · rintro ⟨r, hr, rfl⟩
    exact ⟨r, List.mem_filter.mpr ⟨hr, by simp⟩⟩
  · rintro ⟨r, hr⟩
    rw [List.mem_filter] at hr
    exact ⟨r, hr.1, by simpa using hr.2⟩

theorem lookupCount_borderYearAgg (borderIds : List Int) (rows : List TripRecord) (z : Int) :
    lookupCount (borderYearAgg borderIds rows) z =
      if 0 < borderCount borderIds rows z then some (borderCount borderIds rows z)
      else none := by
  unfold lookupCount borderYearAgg
  rw [find?_keyTable]
  by_cases h : 0 < borderCount borderIds rows z
  · rw [if_pos ((mem_borderKeys_iff _ _ _).mpr h), if_pos h]
    rfl
  · rw [if_neg (fun hm => h ((mem_borderKeys_iff _ _ _).mp hm)), if_neg h]
    rfl

/-- C6: after the outer join with zero fill, every output row carries the
true yearly dropoff counts of its zone (0 for a year where the zone is
absent), and its percent change is the guarded formula: the relative
change times 100 when the baseline count exceeds 50, and exactly 0
otherwise; baseline 30 / comparison 300 gives 0, baseline 60 /
comparison 120 gives 100; a zone appears in the output exactly when it
has at least one border dropoff in one of the two years. -/
theorem C6_border_effect_pct_change (borderIds : List Int)
    (rows24 rows25 : List TripRecord) :
    (pct_change 30 300 = 0 ∧ pct_change 60 120 = 100) ∧
    (∀ z c24 c25 p,
      (z, c24, c25, p) ∈ analyze_border_effect borderIds rows24 rows25 →
      c24 = borderCount borderIds rows24 z ∧ c25 = borderCount borderIds rows25 z ∧
      p = pct_change c24 c25 ∧
      (50 < c24 → p = (((c25 : ℚ) - (c24 : ℚ)) / (c24 : ℚ)) * 100) ∧
      (c24 ≤ 50 → p = 0)) ∧
    (∀ z : Int,
      (∃ c24 c25 p, (z, c24, c25, p) ∈ analyze_border_effect borderIds rows24 rows25) ↔
      (0 < borderCount borderIds rows24 z ∨ 0 < borderCount borderIds rows25 z)) := by
  have hpct : ∀ c24 c25 : ℕ,
      (50 < c24 → pct_change c24 c25 = (((c25 : ℚ) - (c24 : ℚ)) / (c24 : ℚ)) * 100) ∧
      (c24 ≤ 50 → pct_change c24 c25 = 0) := by
    intro c24 c25
    constructor
    · intro h
      rw [pct_change, if_pos h]
    · intro h
      rw [pct_change, if_neg (by omega)]
  have hentry : ∀ z c24 c25 p,
      (z, c24, c25, p) ∈ analyze_border_effect borderIds rows24 rows25 →
      c24 = borderCount borderIds rows24 z ∧ c25 = borderCount borderIds rows25 z ∧
      p = pct_change c24 c25 := by
    intro z c24 c25 p h
    unfold analyze_border_effect at h
    obtain ⟨t, htj, hteq⟩ := List.mem_map.mp h
    rw [Prod.mk.injEq, Prod.mk.injEq, Prod.mk.injEq] at hteq
    obtain ⟨hz, h24, h25, hp⟩ := hteq
    rcases List.mem_append.mp htj with hl | hr
    · obtain ⟨q, hq, hqe⟩ := List.mem_map.mp hl
      obtain ⟨q1, q2⟩ := q
      obtain ⟨hk, hv⟩ := mem_keyTable.mp hq
      subst hqe
      simp only at hz h24 h25 hp
      subst hz
      refine ⟨by rw [← h24, hv], ?_, by rw [← hp, h24, h25]⟩
      rw [← h25, lookupCount_borderYearAgg]
      by_cases hc : 0 < borderCount borderIds rows25 q1
      · rw [if_pos hc]
        rfl
      · rw [if_neg hc]
        simp
        omega
    · obtain ⟨q, hq, hqe⟩ := List.mem_map.mp hr
      obtain ⟨q1, q2⟩ := q
      rw [List.mem_filter] at hq
      obtain ⟨hq, hnone⟩ := hq
      obtain ⟨hk, hv⟩ := mem_keyTable.mp hq
      subst hqe
      simp only at hz h24 h25 hp
      subst hz
      rw [lookupCount_borderYearAgg] at hnone
      have hc24 : borderCount borderIds rows24 q1 = 0 := by
        by_cases hc : 0 < borderCount borderIds rows24 q1
        · rw [if_pos hc] at hnone
          simp at hnone
        · omega
      exact ⟨by omega, by rw [← h25, hv], by rw [← hp, h24, h25]⟩
  refine ⟨⟨by norm_num [pct_change], by norm_num [pct_change]⟩, ?_, ?_⟩
  · intro z c24 c25 p h
    obtain ⟨h1, h2, h3⟩ := hentry z c24 c25 p h
    refine ⟨h1, h2, h3, ?_, ?_⟩
    · intro hgt
      rw [h3, (hpct c24 c25).1 hgt]
    · intro hle
      rw [h3, (hpct c24 c25).2 hle]
  · intro z
    constructor
    · rintro ⟨c24, c25, p, h⟩
      unfold analyze_border_effect at h
      obtain ⟨t, htj, hteq⟩ := List.mem_map.mp h
      rw [Prod.mk.injEq, Prod.mk.injEq, Prod.mk.injEq] at hteq
      obtain ⟨hz, -, -, -⟩ := hteq
      rcases List.mem_append.mp htj with hl | hr
      · obtain ⟨q, hq, hqe⟩ := List.mem_map.mp hl
        obtain ⟨q1, q2⟩ := q
        obtain ⟨hk, -⟩ := mem_keyTable.mp hq
        subst hqe
        simp only at hz
        subst hz
        exact Or.inl ((mem_borderKeys_iff _ _ _).mp hk)
      · obtain ⟨q, hq, hqe⟩ := List.mem_map.mp hr
        obtain ⟨q1, q2⟩ := q
        rw [List.mem_filter] at hq
        obtain ⟨hk, -⟩ := mem_keyTable.mp hq.1
        subst hqe
        simp only at hz
        subst hz
        exact Or.inr ((mem_borderKeys_iff _ _ _).mp hk)
    · intro hc
      by_cases h24 : 0 < borderCount borderIds rows24 z
      · refine ⟨borderCount borderIds rows24 z,
          (lookupCount (borderYearAgg borderIds rows25) z).getD 0,
          pct_change (borderCount borderIds rows24 z)
            ((lookupCount (borderYearAgg borderIds rows25) z).getD 0), ?_⟩
        unfold analyze_border_effect
        refine List.mem_map.mpr ⟨(z, borderCount borderIds rows24 z,
          (lookupCount (borderYearAgg borderIds rows25) z).getD 0), ?_, rfl⟩
        refine List.mem_append.mpr (Or.inl ?_)
        refine List.mem_map.mpr ⟨(z, borderCount borderIds rows24 z), ?_, rfl⟩
        exact mem_keyTable.mpr ⟨(mem_borderKeys_iff _ _ _).mpr h24, rfl⟩
      · have h25 : 0 < borderCount borderIds rows25 z := by
          rcases hc with h | h
          · exact absurd h h24
          · exact h
        refine ⟨0, borderCount borderIds rows25 z,
          pct_change 0 (borderCount borderIds rows25 z), ?_⟩
        unfold analyze_border_effect
        refine List.mem_map.mpr ⟨(z, 0, borderCount borderIds rows25 z), ?_, rfl⟩
        refine List.mem_append.mpr (Or.inr ?_)
        refine List.mem_map.mpr ⟨(z, borderCount borderIds rows25 z), ?_, rfl⟩
        rw [List.mem_filter]
        refine ⟨mem_keyTable.mpr ⟨(mem_borderKeys_iff _ _ _).mpr h25, rfl⟩, ?_⟩
        rw [lookupCount_borderYearAgg, if_neg h24]
        rfl

/-- A single trip ending in border zone 9. -/
def exampleBorderTrip : TripRecord :=
  { pickup_time := 0, dropoff_time := 600, pickup_loc := 3, dropoff_loc := 9,
    trip_distance := 1, fare := 10, total_amount := 10, tip_amount := 0,
    congestion_surcharge := 0 }

theorem C6_border_effect_pct_change_witness :
    (1 : ℕ) = borderCount [9] [exampleBorderTrip] 9 ∧ (0 : ℚ) = pct_change 1 0 :=
  have h := (C6_border_effect_pct_change [9] [exampleBorderTrip] []).2.1 9 1 0 0
    (by decide)
  ⟨h.1, h.2.2.1⟩

/-- The recomputed `duration_hours` column of `analyze_velocity_heatmap`. -/
def duration_hours (r : TripRecord) : ℚ :=
  ((r.dropoff_time - r.pickup_time : Int) : ℚ) / 3600

/-- The recomputed speed of `analyze_velocity_heatmap` (no epsilon: rows
with small duration are dropped before the division). -/
def heatSpeed (r : TripRecord) : ℚ := r.trip_distance / duration_hours r

/-- `dt.weekday()`: ISO weekday of an epoch-second timestamp (Monday = 1;
day 0 of the epoch was a Thursday). -/
def weekday (t : Int) : Int := (t.ediv 86400 + 3).emod 7 + 1

/-- `dt.hour()`: hour of day of an epoch-second timestamp. -/
def hour_of_day (t : Int) : Int := (t.emod 86400).ediv 3600

/-- The (day-of-week, hour-of-day) group key of the heatmap. -/
def heatKey (r : TripRecord) : Int × Int :=
  (weekday r.pickup_time, hour_of_day r.pickup_time)

/-- The rows of `analyze_velocity_heatmap` surviving both filters:
pickup and dropoff inside the zone set, then `duration_hours > 0.05`. -/
def heatmapIncluded (zoneIds : List Int) (rows : List TripRecord) : List TripRecord :=
  (rows.filter
      (fun r => zoneIds.contains r.pickup_loc && zoneIds.contains r.dropoff_loc)).filter
    (fun r => decide (duration_hours r > 1/20))

/-- Mean speed of one (day, hour) cell. -/
def cellMean (trips : List TripRecord) (k : Int × Int) : ℚ :=
  ((trips.filter (fun r => heatKey r == k)).map heatSpeed).sum /
    ((trips.filter (fun r => heatKey r == k)).length : ℚ)

/-- The `group_by(["day_of_week", "hour_of_day"]).agg(mean)` step. -/
def heatmapCells (zoneIds : List Int) (rows : List TripRecord) :
    List ((Int × Int) × ℚ) :=
  keyTable (((heatmapIncluded zoneIds rows).map heatKey).dedup)
    (cellMean (heatmapIncluded zoneIds rows))

/-- The `sort(["day_of_week", "hour_of_day"])` order of the output. -/
def cellLe (a b : (Int × Int) × ℚ) : Prop :=
  a.1.1 < b.1.1 ∨ (a.1.1 = b.1.1 ∧ a.1.2 ≤ b.1.2)

instance : DecidableRel cellLe := fun a b =>
  inferInstanceAs (Decidable (a.1.1 < b.1.1 ∨ (a.1.1 = b.1.1 ∧ a.1.2 ≤ b.1.2)))

instance : IsTotal ((Int × Int) × ℚ) cellLe := ⟨by
  intro a b
  rcases lt_trichotomy a.1.1 b.1.1 with h | h | h
  · exact Or.inl (Or.inl h)
  · rcases le_total a.1.2 b.1.2 with h2 | h2
    · exact Or.inl (Or.inr ⟨h, h2⟩)
    · exact Or.inr (Or.inr ⟨h.symm, h2⟩)
  · exact Or.inr (Or.inl h)⟩

instance : IsTrans ((Int × Int) × ℚ) cellLe := ⟨by
  intro a b c hab hbc
  rcases hab with h1 | ⟨h1, h1b⟩ <;> rcases hbc with h2 | ⟨h2, h2b⟩
  · exact Or.inl (lt_trans h1 h2)
  · exact Or.inl (h2 ▸ h1)
  · exact Or.inl (h1 ▸ h2)
  · exact Or.inr ⟨h1.trans h2, le_trans h1b h2b⟩⟩

/-- `analyze_velocity_heatmap` of `src/analytics.py` for one year's rows:
internal-zone filter, duration cutoff, per-cell mean speed, sorted by
(day, hour). -/
def analyze_velocity_heatmap (zoneIds : List Int) (rows : List TripRecord) :
    List ((Int × Int) × ℚ) :=
  List.insertionSort cellLe (heatmapCells zoneIds rows)

/-- An internal-zone trip of exactly 3 minutes (0.05 hr). -/
def exampleThreeMinuteTrip : TripRecord :=
  { pickup_time := 0, dropoff_time := 180, pickup_loc := 1, dropoff_loc := 1,
    trip_distance := 2, fare := 10, total_amount := 10, tip_amount := 0,
    congestion_surcharge := 0 }

/-- An internal-zone trip of 6 minutes over 2 miles (20 mph). -/
def exampleSixMinuteTrip : TripRecord :=
  { pickup_time := 0, dropoff_time := 360, pickup_loc := 1, dropoff_loc := 1,
    trip_distance := 2, fare := 10, total_amount := 10, tip_amount := 0,
    congestion_surcharge := 0 }

theorem exampleHeatmapIncluded :
    heatmapIncluded [1] [exampleThreeMinuteTrip, exampleSixMinuteTrip] =
      [exampleSixMinuteTrip] := by
  unfold heatmapIncluded
  rw [List.filter_cons, List.filter_cons, List.filter_nil]
  norm_num [exampleThreeMinuteTrip, exampleSixMinuteTrip]
  rw [List.filter_cons, List.filter_cons, List.filter_nil]
  norm_num [exampleThreeMinuteTrip, exampleSixMinuteTrip, duration_hours]

theorem exampleSixMinuteSpeed : heatSpeed exampleSixMinuteTrip = 20 := by
  norm_num [heatSpeed, duration_hours, exampleSixMinuteTrip]

theorem exampleHeatmapOutput :
    analyze_velocity_heatmap [1] [exampleThreeMinuteTrip, exampleSixMinuteTrip] =
      [((4, 0), 20)] := by
  unfold analyze_velocity_heatmap heatmapCells
  rw [exampleHeatmapIncluded]
  have hkey : heatKey exampleSixMinuteTrip = (4, 0) := by decide
  simp only [List.map_cons, List.map_nil, hkey, List.dedup_nil, List.dedup_cons_of_not_mem,
    List.not_mem_nil, not_false_iff, keyTable]
  have hmean : cellMean [exampleSixMinuteTrip] (4, 0) = 20 := by
    unfold cellMean
    rw [List.filter_cons, List.filter_nil]
    rw [if_pos (by rw [hkey]; rfl)]
    simp [exampleSixMinuteSpeed]
  rw [hmean]
  rfl

/-- C8: a trip enters the velocity heatmap iff pickup and dropoff are both
inside the zone set and its recomputed duration strictly exceeds 0.05
hours; an exactly-3-minute trip is excluded, a 2-mile 6-minute trip
contributes 20 mph; every cell's value is the mean of the speeds
(distance / duration) of its included trips, and a (day, hour) cell is
present in the output iff some included trip has that key. -/
theorem C8_velocity_heatmap (zoneIds : List Int) (rows : List TripRecord) :
    (∀ r ∈ rows, r ∈ heatmapIncluded zoneIds rows ↔
      (r.pickup_loc ∈ zoneIds ∧ r.dropoff_loc ∈ zoneIds ∧ duration_hours r > 1/20)) ∧
    (∀ r : TripRecord, heatSpeed r = r.trip_distance / duration_hours r) ∧
    (duration_hours exampleThreeMinuteTrip = 1/20 ∧
      exampleThreeMinuteTrip ∉
        heatmapIncluded [1] [exampleThreeMinuteTrip, exampleSixMinuteTrip]) ∧
    (heatSpeed exampleSixMinuteTrip = 20 ∧
      analyze_velocity_heatmap [1] [exampleThreeMinuteTrip, exampleSixMinuteTrip] =
        [((4, 0), 20)]) ∧
    (∀ k m, (k, m) ∈ analyze_velocity_heatmap zoneIds rows →
      m = (((heatmapIncluded zoneIds rows).filter
            (fun r => heatKey r == k)).map heatSpeed).sum /
        (((heatmapIncluded zoneIds rows).filter (fun r => heatKey r == k)).length : ℚ)) ∧
    (∀ k : Int × Int, (∃ m, (k, m) ∈ analyze_velocity_heatmap zoneIds rows) ↔
      ∃ r ∈ heatmapIncluded zoneIds rows, heatKey r = k) := by
  have hmem_cells : ∀ x, x ∈ analyze_velocity_heatmap zoneIds rows ↔
      x ∈ heatmapCells zoneIds rows := by
    intro x
    exact (List.perm_insertionSort cellLe (heatmapCells zoneIds rows)).mem_iff
  refine ⟨?_, fun r => rfl, ?_, ?_, ?_, ?_⟩
  · intro r hr
    unfold heatmapIncluded
    rw [List.mem_filter, List.mem_filter]
    simp [hr, and_assoc]
  · refine ⟨by norm_num [duration_hours, exampleThreeMinuteTrip], ?_⟩
    rw [exampleHeatmapIncluded]
    intro h
    rw [List.mem_singleton] at h
    exact absurd (congrArg TripRecord.dropoff_time h) (by decide)
  · exact ⟨exampleSixMinuteSpeed, exampleHeatmapOutput⟩
  · intro k m h
    rw [hmem_cells] at h
    obtain ⟨-, hv⟩ := mem_keyTable.mp h
    rw [hv]
    rfl
  · intro k
    constructor
    · rintro ⟨m, hm⟩
      rw [hmem_cells] at hm
      obtain ⟨hk, -⟩ := mem_keyTable.mp hm
      rw [List.mem_dedup] at hk
      obtain ⟨r, hr, hre⟩ := List.mem_map.mp hk
      exact ⟨r, hr, hre⟩
    · rintro ⟨r, hr, hre⟩
      refine ⟨cellMean (heatmapIncluded zoneIds rows) k, ?_⟩
      rw [hmem_cells]
      refine mem_keyTable.mpr ⟨?_, rfl⟩
      rw [List.mem_dedup]
      exact List.mem_map.mpr ⟨r, hr, hre⟩

theorem C8_velocity_heatmap_witness :
    exampleSixMinuteTrip ∈
      heatmapIncluded [1] [exampleThreeMinuteTrip, exampleSixMinuteTrip] :=
  ((C8_velocity_heatmap [1] [exampleThreeMinuteTrip, exampleSixMinuteTrip]).1
      exampleSixMinuteTrip (by simp)).mpr
    ⟨by simp [exampleSixMinuteTrip], by simp [exampleSixMinuteTrip],
      by norm_num [duration_hours, exampleSixMinuteTrip]⟩

/-- `LATITUDE_CUTOFF_60TH_ST` of `src/geospatial.py`. -/
def latitude_cutoff_60th_st : ℚ := 40764/1000

/-- The northern edge of the border band in `get_border_zone_ids`. -/
def border_north_cutoff : ℚ := 40790/1000

/-- One row of the zone shapefile table: id, borough, geometry.  The
geometry type `G` and centroid type `P` are abstract: the geometric
operations (shapely centroid, pyproj reprojection) are external
collaborators of the repository. -/
structure ZoneRow (G : Type) where
  locationID : Int
  borough : String
  geometry : G

/-- The latitude the classifiers test, exactly as computed in
`src/geospatial.py` lines 55-56 and 83-84: the centroid is taken in the
geometry's native projection and the centroid point is then reprojected
to EPSG:4326 (`geometry.centroid.to_crs(epsg=4326)`), and its `y` is the
latitude. -/
def centroidLat {G P : Type} (centroid : G → P) (toCRS4326 : P → P) (latOf : P → ℚ)
    (g : G) : ℚ :=
  latOf (toCRS4326 (centroid g))

/-- `get_congestion_zone_ids` of `src/geospatial.py`: Manhattan rows whose
centroid latitude is strictly below the 60th-Street cutoff. -/
def get_congestion_zone_ids {G P : Type} (centroid : G → P) (toCRS4326 : P → P)
    (latOf : P → ℚ) (gdf : List (ZoneRow G)) : List Int :=
  (((gdf.filter (fun z => z.borough == "Manhattan")).filter
      (fun z => decide (centroidLat centroid toCRS4326 latOf z.geometry <
        latitude_cutoff_60th_st))).map (fun z => z.locationID))

/-- `get_border_zone_ids` of `src/geospatial.py`: Manhattan rows whose
centroid latitude lies in the band [40.764, 40.790). -/
def get_border_zone_ids {G P : Type} (centroid : G → P) (toCRS4326 : P → P)
    (latOf : P → ℚ) (gdf : List (ZoneRow G)) : List Int :=
  (((gdf.filter (fun z => z.borough == "Manhattan")).filter
      (fun z => decide (latitude_cutoff_60th_st ≤
          centroidLat centroid toCRS4326 latOf z.geometry ∧
        centroidLat centroid toCRS4326 latOf z.geometry <
          border_north_cutoff))).map (fun z => z.locationID))

/-- Modelled from the spec's words for comparison (section 4.1 and the
design notes): reproject the whole geometry layer to EPSG:4326 first,
then take centroids, then test the latitude threshold.  `layerToCRS4326`
reprojects a whole geometry. -/
def congestion_ids_reproject_first {G P : Type} (layerToCRS4326 : G → G)
    (centroid : G → P) (latOf : P → ℚ) (gdf : List (ZoneRow G)) : List Int :=
  (((gdf.filter (fun z => z.borough == "Manhattan")).filter
      (fun z => decide (latOf (centroid (layerToCRS4326 z.geometry)) <
        latitude_cutoff_60th_st))).map (fun z => z.locationID))

/-- The reference pipeline in the amended reading: centroids are taken in
the native projection first and the centroid points are then reprojected,
and the layer's latitudes are computed in one pass before filtering. -/
def congestion_ids_centroid_first {G P : Type} (centroid : G → P) (toCRS4326 : P → P)
    (latOf : P → ℚ) (gdf : List (ZoneRow G)) : List Int :=
  ((((gdf.filter (fun z => z.borough == "Manhattan")).map
        (fun z => (z, latOf (toCRS4326 (centroid z.geometry))))).filter
      (fun zl => decide (zl.2 < latitude_cutoff_60th_st))).map
    (fun zl => zl.1.locationID))

/-- The centroid-first border band, same shape as
`congestion_ids_centroid_first`. -/
def border_ids_centroid_first {G P : Type} (centroid : G → P) (toCRS4326 : P → P)
    (latOf : P → ℚ) (gdf : List (ZoneRow G)) : List Int :=
  ((((gdf.filter (fun z => z.borough == "Manhattan")).map
        (fun z => (z, latOf (toCRS4326 (centroid z.geometry))))).filter
      (fun zl => decide (latitude_cutoff_60th_st ≤ zl.2 ∧
        zl.2 < border_north_cutoff))).map (fun zl => zl.1.locationID))

theorem filter_map_pair {α β γ : Type} (l : List α) (f : α → β) (p : β → Bool)
    (g : α → γ) :
    ((l.map (fun a => (a, f a))).filter (fun al => p al.2)).map (fun al => g al.1) =
      (l.filter (fun a => p (f a))).map g := by
  induction l with
  | nil => rfl
  | cons a t ih =>
    simp only [List.map_cons, List.filter_cons]
    by_cases h : p (f a)
    · simp [h, ih]
    · simp [h, ih]

/-- A one-dimensional stand-in geometry: a list of vertex coordinates. -/
def vertexAverage (g : List ℚ) : ℚ := g.sum / (g.length : ℚ)

/-- A concrete nonlinear stand-in for the map-projection change. -/
def sampleProjection (x : ℚ) : ℚ := x * x / 100

/-- A one-zone Manhattan layer on which the two reprojection orders
classify differently. -/
def sampleLayer : List (ZoneRow (List ℚ)) :=
  [⟨1, "Manhattan", [0, 100]⟩]

/-- C3 counterexample: the classifier as implemented (centroid, then
reproject) puts the sample zone inside the congestion set, while the
pipeline described by the spec (reproject the layer, then centroid)
leaves it out, so the code does not compute reproject-then-centroid. -/
theorem C3_reproject_order_counterexample :
    get_congestion_zone_ids vertexAverage sampleProjection (fun x => x) sampleLayer =
        [1] ∧
    congestion_ids_reproject_first (List.map sampleProjection) vertexAverage
        (fun x => x) sampleLayer = [] := by
  constructor
  · have h1 : centroidLat vertexAverage sampleProjection (fun x => x)
        [(0 : ℚ), 100] < latitude_cutoff_60th_st := by
      norm_num [centroidLat, vertexAverage, sampleProjection, latitude_cutoff_60th_st]
    simp [get_congestion_zone_ids, sampleLayer, List.filter_cons, h1]
  · simp [congestion_ids_reproject_first, sampleLayer, List.filter_cons]
    norm_num [vertexAverage, sampleProjection, latitude_cutoff_60th_st]

/-- C3 (amended): both zone classifiers compute every tested latitude by
taking the centroid in the native projection first and reprojecting the
centroid point to EPSG:4326 afterwards (centroid-then-reproject), the
same composite for the congestion set and the border band. -/
theorem C3_centroid_then_reproject {G P : Type} (centroid : G → P)
    (toCRS4326 : P → P) (latOf : P → ℚ) (gdf : List (ZoneRow G)) :
    get_congestion_zone_ids centroid toCRS4326 latOf gdf =
      congestion_ids_centroid_first centroid toCRS4326 latOf gdf ∧
    get_border_zone_ids centroid toCRS4326 latOf gdf =
      border_ids_centroid_first centroid toCRS4326 latOf gdf := by
  constructor
  · unfold get_congestion_zone_ids congestion_ids_centroid_first centroidLat
    exact (filter_map_pair (gdf.filter (fun z => z.borough == "Manhattan"))
      (fun z => latOf (toCRS4326 (centroid z.geometry)))
      (fun q => decide (q < latitude_cutoff_60th_st))
      (fun z => z.locationID)).symm
  · unfold get_border_zone_ids border_ids_centroid_first centroidLat
    exact (filter_map_pair (gdf.filter (fun z => z.borough == "Manhattan"))
      (fun z => latOf (toCRS4326 (centroid z.geometry)))
      (fun q => decide (latitude_cutoff_60th_st ≤ q ∧ q < border_north_cutoff))
      (fun z => z.locationID)).symm

theorem C3_centroid_then_reproject_witness :
    get_congestion_zone_ids vertexAverage sampleProjection (fun x => x) sampleLayer =
      congestion_ids_centroid_first vertexAverage sampleProjection (fun x => x)
        sampleLayer :=
  (C3_centroid_then_reproject vertexAverage sampleProjection (fun x => x)
    sampleLayer).1

/-- A synthetic layer whose geometry is already a latitude: Manhattan
zones at 40.70, 40.78 and 40.80, and a Brooklyn zone at 40.70. -/
def syntheticZones : List (ZoneRow ℚ) :=
  [⟨1, "Manhattan", 407/10⟩, ⟨2, "Manhattan", 4078/100⟩,
   ⟨3, "Manhattan", 408/10⟩, ⟨4, "Brooklyn", 407/10⟩]

/-- C7: a zone id is in the congestion set iff some row with that id is a
Manhattan row with centroid latitude strictly below 40.764, and in the
border set iff such a row has latitude in [40.764, 40.790); on the
synthetic layer the Manhattan zone at 40.70 is congestion, the one at
40.78 is border, the one at 40.80 is neither and the Brooklyn zone at
40.70 is neither. -/
theorem C7_zone_classification {G P : Type} (centroid : G → P) (toCRS4326 : P → P)
    (latOf : P → ℚ) (gdf : List (ZoneRow G)) :
    (∀ i : Int, i ∈ get_congestion_zone_ids centroid toCRS4326 latOf gdf ↔
      ∃ z ∈ gdf, z.locationID = i ∧ z.borough = "Manhattan" ∧
        centroidLat centroid toCRS4326 latOf z.geometry < latitude_cutoff_60th_st) ∧
    (∀ i : Int, i ∈ get_border_zone_ids centroid toCRS4326 latOf gdf ↔
      ∃ z ∈ gdf, z.locationID = i ∧ z.borough = "Manhattan" ∧
        latitude_cutoff_60th_st ≤ centroidLat centroid toCRS4326 latOf z.geometry ∧
        centroidLat centroid toCRS4326 latOf z.geometry < border_north_cutoff) ∧
    (get_congestion_zone_ids (fun x : ℚ => x) (fun x => x) (fun x => x)
        syntheticZones = [1] ∧
      get_border_zone_ids (fun x : ℚ => x) (fun x => x) (fun x => x)
        syntheticZones = [2]) := by
  refine ⟨?_, ?_, ?_, ?_⟩
  · intro i
    unfold get_congestion_zone_ids
    rw [List.mem_map]
    constructor
    · rintro ⟨z, hz, rfl⟩
      rw [List.mem_filter, List.mem_filter] at hz
      obtain ⟨⟨hmem, hb⟩, hlat⟩ := hz
      exact ⟨z, hmem, rfl, by simpa using hb, by simpa using hlat⟩
    · rintro ⟨z, hmem, rfl, hb, hlat⟩
      refine ⟨z, ?_, rfl⟩
      rw [List.mem_filter, List.mem_filter]
      exact ⟨⟨hmem, by simp [hb]⟩, by simp [hlat]⟩
  · intro i
    unfold get_border_zone_ids
    rw [List.mem_map]
    constructor
    · rintro ⟨z, hz, rfl⟩
      rw [List.mem_filter, List.mem_filter] at hz
      obtain ⟨⟨hmem, hb⟩, hlat⟩ := hz
      rw [decide_eq_true_eq] at hlat
      exact ⟨z, hmem, rfl, by simpa using hb, hlat.1, hlat.2⟩
    · rintro ⟨z, hmem, rfl, hb, hlat1, hlat2⟩
      refine ⟨z, ?_, rfl⟩
      rw [List.mem_filter, List.mem_filter]
      exact ⟨⟨hmem, by simp [hb]⟩, by rw [decide_eq_true_eq]; exact ⟨hlat1, hlat2⟩⟩
  · have hbk : ¬ "Brooklyn" = "Manhattan" := by decide
    norm_num [get_congestion_zone_ids, syntheticZones, centroidLat, List.filter_cons,
      latitude_cutoff_60th_st, hbk]
  · have hbk : ¬ "Brooklyn" = "Manhattan" := by decide
    norm_num [get_border_zone_ids, syntheticZones, centroidLat, List.filter_cons,
      latitude_cutoff_60th_st, border_north_cutoff, hbk]

theorem C7_zone_classification_witness :
    (1 : Int) ∈ get_congestion_zone_ids (fun x : ℚ => x) (fun x => x) (fun x => x)
      syntheticZones :=
  ((C7_zone_classification (fun x : ℚ => x) (fun x => x) (fun x => x)
      syntheticZones).1 1).mpr
    ⟨⟨1, "Manhattan", 407/10⟩, by simp [syntheticZones], rfl, rfl,
      by norm_num [centroidLat, latitude_cutoff_60th_st]⟩

/-- A raw dataframe cell: float, integer, text or null. -/
inductive RawVal where
  | f (x : ℚ)
  | i (n : Int)
  | s (t : String)
  | null
deriving DecidableEq

/-- A raw dataframe: named columns of raw cells. -/
abbrev RawBatch := List (String × List RawVal)

/-- Digits-only check used by the decimal model of the strict cast. -/
def allDigits (cs : List Char) : Bool := cs.all (fun c => c.isDigit)

/-- Value of a digit string. -/
def digitsToNat (cs : List Char) : ℕ := cs.foldl (fun n c => 10 * n + (c.toNat - 48)) 0

/-- Modelled from polars' strict `Utf8 -> Float64` cast (an external
library operation used by `standardize_schema`): parse a decimal numeral
with optional sign and fractional part, failing on malformed text. -/
def parseDecimal (t : String) : Option ℚ :=
  let unsigned : List Char → Option ℚ := fun body =>
    match body.splitOn '.' with
    | [w] => if w ≠ [] ∧ allDigits w then some (digitsToNat w) else none
    | [w, fr] =>
        if w ≠ [] ∧ fr ≠ [] ∧ allDigits w ∧ allDigits fr then
          some ((digitsToNat w : ℚ) + (digitsToNat fr : ℚ) / (10 ^ fr.length))
        else none
    | _ => none
  match t.data with
  | '-' :: rest => (unsigned rest).map (fun q => -q)
  | rest => unsigned rest

/-- `cast(pl.Float64)` on one cell: numbers cast, text parses strictly,
null stays null (an error is `none`). -/
def castFloat : RawVal → Option RawVal
  | .f x => some (.f x)
  | .i n => some (.f (n : ℚ))
  | .s t => (parseDecimal t).map (fun q => .f q)
  | .null => some .null

/-- The vendor column mapping of `standardize_schema` (the two mappings
differ only in the timestamp source names). -/
def rename_map (taxi_type : String) : List (String × String) :=
  if taxi_type = "yellow" then
    [("tpep_pickup_datetime", "pickup_time"), ("tpep_dropoff_datetime", "dropoff_time"),
     ("PULocationID", "pickup_loc"), ("DOLocationID", "dropoff_loc"),
     ("trip_distance", "trip_distance"), ("fare_amount", "fare"),
     ("total_amount", "total_amount"), ("tip_amount", "tip_amount"),
     ("congestion_surcharge", "congestion_surcharge")]
  else
    [("lpep_pickup_datetime", "pickup_time"), ("lpep_dropoff_datetime", "dropoff_time"),
     ("PULocationID", "pickup_loc"), ("DOLocationID", "dropoff_loc"),
     ("trip_distance", "trip_distance"), ("fare_amount", "fare"),
     ("total_amount", "total_amount"), ("tip_amount", "tip_amount"),
     ("congestion_surcharge", "congestion_surcharge")]

/-- Column lookup by name. -/
def lookupCol (df : RawBatch) (k : String) : Option (List RawVal) :=
  (df.find? (fun c => c.1 == k)).map (fun c => c.2)

/-- Step 2 of `standardize_schema`: keep only mapping columns present in
the input, renamed to the canonical name. -/
def selectRename (df : RawBatch) (m : List (String × String)) : RawBatch :=
  m.filterMap (fun kv => (lookupCol df kv.1).map (fun col => (kv.2, col)))

/-- One `with_columns` expression `pl.col(name).cast(pl.Float64)`, with
`fill_null(0.0)` when `fillNull0` is set: it raises (returns `none`) when
the named column is absent or some cell fails the strict cast. -/
def applyCast (df : RawBatch) (name : String) (fillNull0 : Bool) : Option RawBatch :=
  match lookupCol df name with
  | none => none
  | some col =>
    (col.mapM castFloat).map (fun cast_col =>
      let filled := if fillNull0 then
          cast_col.map (fun v => if v = RawVal.null then RawVal.f 0 else v)
        else cast_col
      df.map (fun kv => if kv.1 == name then (kv.1, filled) else kv))

/-- `standardize_schema` of `src/processing.py`: select-and-rename, then
force the five numeric columns to Float64, filling nulls with 0.0 for the
two optional monetary columns; `none` models the raised error that makes
`process_data` skip the file. -/
def standardize_schema (df : RawBatch) (taxi_type : String) : Option RawBatch :=
  let sel := selectRename df (rename_map taxi_type)
  (applyCast sel "trip_distance" false).bind (fun d1 =>
    (applyCast d1 "fare" false).bind (fun d2 =>
      (applyCast d2 "total_amount" false).bind (fun d3 =>
        (applyCast d3 "tip_amount" true).bind (fun d4 =>
          applyCast d4 "congestion_surcharge" true))))

/-- Whether the pattern is an initial segment of the text. -/
def leadingMatch : List Char → List Char → Bool
  | [], _ => true
  | _ :: _, [] => false
  | a :: as, b :: bs => a == b && leadingMatch as bs

/-- Substring containment on character lists (the `in` test of Python). -/
def hasSubstring (pat : List Char) : List Char → Bool
  | [] => leadingMatch pat []
  | c :: cs => leadingMatch pat (c :: cs) || hasSubstring pat cs

/-- The vendor dispatch of `process_data`:
`"yellow" if "yellow" in file_name else "green"`. -/
def taxiTypeOf (file_name : String) : String :=
  if hasSubstring "yellow".data file_name.data then "yellow" else "green"

/-- The per-file loop of `process_data` restricted to normalization: each
file is processed independently, a failed file is reported under its name
(`false`) and the loop continues with the remaining files. -/
def processBatches (files : List (String × RawBatch)) : List (String × Bool) :=
  files.map (fun fb => (fb.1, (standardize_schema fb.2 (taxiTypeOf fb.1)).isSome))

/-- A well-formed one-row yellow batch missing only the optional
`congestion_surcharge` column. -/
def missingSurchargeBatch : RawBatch :=
  [("tpep_pickup_datetime", [RawVal.i 0]), ("tpep_dropoff_datetime", [RawVal.i 600]),
   ("PULocationID", [RawVal.i 1]), ("DOLocationID", [RawVal.i 2]),
   ("trip_distance", [RawVal.f 1]), ("fare_amount", [RawVal.f 10]),
   ("total_amount", [RawVal.f 12]), ("tip_amount", [RawVal.f 2])]

/-- The same batch with the `congestion_surcharge` column present but
null. -/
def fullYellowBatch : RawBatch :=
  missingSurchargeBatch ++ [("congestion_surcharge", [RawVal.null])]

/-- C4 (code-bug evaluation): on a batch whose only defect is the absent
optional `congestion_surcharge` column, every mandatory numeric cast
succeeds and yet normalization fails (the `pl.col` reference to the
dropped column raises), the file is reported failed and the next file
still processes; with the column present but null, the value is defaulted
to 0.0 and normalization succeeds. -/
theorem C4_missing_optional_column_fails :
    standardize_schema missingSurchargeBatch "yellow" = none ∧
    ((lookupCol (selectRename missingSurchargeBatch (rename_map "yellow"))
        "trip_distance").isSome ∧
      (((lookupCol (selectRename missingSurchargeBatch (rename_map "yellow"))
        "trip_distance").getD []).mapM castFloat).isSome ∧
      (lookupCol (selectRename missingSurchargeBatch (rename_map "yellow"))
        "fare").isSome ∧
      (((lookupCol (selectRename missingSurchargeBatch (rename_map "yellow"))
        "fare").getD []).mapM castFloat).isSome ∧
      (lookupCol (selectRename missingSurchargeBatch (rename_map "yellow"))
        "total_amount").isSome ∧
      (((lookupCol (selectRename missingSurchargeBatch (rename_map "yellow"))
        "total_amount").getD []).mapM castFloat).isSome) ∧
    lookupCol (selectRename missingSurchargeBatch (rename_map "yellow"))
      "congestion_surcharge" = none ∧
    processBatches
      [("yellow_tripdata_2025-01.parquet", missingSurchargeBatch),
       ("yellow_tripdata_2025-02.parquet", fullYellowBatch)] =
      [("yellow_tripdata_2025-01.parquet", false),
       ("yellow_tripdata_2025-02.parquet", true)] ∧
    lookupCol ((standardize_schema fullYellowBatch "yellow").getD [])
      "congestion_surcharge" = some [RawVal.f 0] := by
  decide

end NYC
